import Mathlib

/-!
Verification of `fprime_gds/executables/run_deployment.py`: a supervisor
that builds a launch plan from a resolved configuration, launches each
dependent process with a stabilization window, waits on the terminal
process, and tears everything down on failure or interrupt.

The Python source is shallowly embedded below: pure computations become
Lean functions, the imperative launch loop becomes explicit traces, and
external effects (the wrapped application launcher, log reads, the wait
on the terminal process) become explicit parameters describing their
outcome. Python strings are bridged to Lean strings; the pipe-joining and
pipe-splitting of the GUI environment variable are embedded at the level
of character lists, matching Python `str.join` and `str.split` semantics
for a single-character separator.
-/

namespace RunDeployment

/-- Identities of the dependent processes that `main` can plan. -/
inductive Step
  | tts
  | comm
  | app
  | html
  | openmct
  | poller
deriving DecidableEq

/-- Resolved configuration fields of the parsed argument namespace that
`run_deployment.py` reads (`parsed_args`). The application path is
`Option` since `parsed_args.app` may be unset. -/
structure Config where
  zmq : Bool
  adapter : String
  app : Option String
  gui : String
  gui_addr : String
  gui_port : Nat
  tts_port : Nat
  tts_addr : String
  port : Nat
  address : String
  logs : String
  openmct : Bool

/-- Embedding of `BASE_MODULE_ARGUMENTS = [sys.executable, "-u", "-m"]`;
the interpreter path is a parameter of the model. -/
def BASE_MODULE_ARGUMENTS (pythonExecutable : String) : List String :=
  [pythonExecutable, "-u", "-m"]

/-- Embedding of the launcher-list construction in `main` (lines 196-231):
start from the empty list, append the tcp server unless `zmq`, append the
comm adapter unless the adapter is "none", append the app only when an app
path is set and the adapter is "ip", always append the HTML GUI, and append
the OpenMCT server and poller when `openmct` is requested. -/
def buildPlan (c : Config) : List Step :=
  let launchers : List Step := []
  let launchers := if c.zmq = false then launchers ++ [Step.tts] else launchers
  let launchers := if c.adapter ≠ "none" then launchers ++ [Step.comm] else launchers
  let launchers :=
    if c.app.isSome then
      if c.adapter = "ip" then launchers ++ [Step.app] else launchers
    else launchers
  let launchers := launchers ++ [Step.html]
  let launchers :=
    if c.openmct then launchers ++ [Step.openmct, Step.poller] else launchers
  launchers

/-- The plan in fully flattened form: one block per dependent, in source
order. Used to compare `buildPlan` against the specified sequence. -/
def planBlocks (c : Config) : List Step :=
  (if c.zmq = false then [Step.tts] else []) ++
  (if c.adapter ≠ "none" then [Step.comm] else []) ++
  (if c.app.isSome ∧ c.adapter = "ip" then [Step.app] else []) ++
  [Step.html] ++
  (if c.openmct then [Step.openmct, Step.poller] else [])

/-- A configuration scenario with adapter "none", no app, no bridge (and
the default relay transport, so the relay is planned). -/
def cfgNone : Config :=
  { zmq := false, adapter := "none", app := none, gui := "html",
    gui_addr := "127.0.0.1", gui_port := 5000, tts_port := 50050,
    tts_addr := "0.0.0.0", port := 50000, address := "127.0.0.1",
    logs := "/tmp/logs", openmct := false }

/-- A configuration scenario with adapter "ip", an app path, no bridge. -/
def cfgIp : Config :=
  { cfgNone with adapter := "ip", app := some "/deploy/bin/App" }

/-- Outcome of the blocking wait on the terminal process (`procs[-1].wait()`):
it returns normally, a KeyboardInterrupt arrives, or another exception is
raised while waiting. -/
inductive WaitEvent
  | terminalExit
  | interrupt
  | error
deriving DecidableEq

/-- Observable trace of one run of `main`: whether the bridge configuration
error was raised, which plan steps were attempted and which produced a
live handle, which handles received a terminate request at exit, and the
final exit status of the run. -/
structure RunTrace where
  configError : Bool
  attempted : List Step
  launched : List Step
  terminated : List Step
  exitCode : Nat
deriving DecidableEq

/-- Steps the launch loop `[launcher(parsed_args) for launcher in launchers]`
invokes: every step up to and including the first failing one. -/
def attemptedSeq {α : Type} (ok : α → Bool) : List α → List α
  | [] => []
  | s :: rest => if ok s then s :: attemptedSeq ok rest else [s]

/-- Handles the launch loop obtains: every step strictly before the first
failing one (a failing launcher raises, so it yields no handle). -/
def launchedSeq {α : Type} (ok : α → Bool) : List α → List α
  | [] => []
  | s :: rest => if ok s then s :: launchedSeq ok rest else []

/-- Embedding of `main` (lines 191-244). `openmctAvailable` models whether
the optional `fprime_openmct` package imported; `ok` models whether each
step's process survives its stabilization window; `w` models what happens
while waiting on the terminal process. When the bridge is requested but
unavailable, the ImportError is raised before the launch loop, so nothing
is attempted and the uncaught exception ends the interpreter with status 1.
Otherwise the loop launches the plan in order; a launch failure is caught
by the generic handler and returns 1; with every launch successful, the
wait returns 0 on normal terminal exit or interrupt and 1 on any other
exception. `terminated` is modelled from the spec: the source relies on
exit-time reaping ("Processes are killed atexit", line 243) implemented in
`run_wrapped_application`, outside this file's source, and the spec states
every successfully obtained handle receives a terminate request exactly
once before the supervisor exits. -/
def mainRun (c : Config) (openmctAvailable : Bool) (ok : Step → Bool)
    (w : WaitEvent) : RunTrace :=
  if c.openmct && !openmctAvailable then
    { configError := true, attempted := [], launched := [], terminated := [],
      exitCode := 1 }
  else
    let plan := buildPlan c
    let launched := launchedSeq ok plan
    let code :=
      if plan.all ok then
        match w with
        | WaitEvent.terminalExit => 0
        | WaitEvent.interrupt => 0
        | WaitEvent.error => 1
      else 1
    { configError := false, attempted := attemptedSeq ok plan,
      launched := launched, terminated := launched, exitCode := code }

/-- Result of one `launch_process` call: the returned handle or the raised
`AppWrapperException` message, plus the lines printed to standard error. -/
structure ProcOutcome where
  result : Except String Unit
  errLines : List String

/-- Display name used by `launch_process`: the given name, or the printed
command when no name was given (`name = str(cmd)`). -/
def effectiveName (cmd : List String) (name : Option String) : String :=
  match name with
  | some n => n
  | none => toString cmd

/-- Embedding of `launch_process` (lines 49-75). `wrapped` is the outcome of
the external `run_wrapped_application` call (handle, or the message of the
`AppWrapperException` it raised); `logRead` is the outcome of reopening and
reading the log file (its lines, or an error such as the file never having
been created). On a wrapped failure the error is printed, the log is
replayed best-effort when a log path was given — any read error is caught
by the bare handler and discarded — and a fresh `AppWrapperException`
naming the dependent is raised. -/
def launch_process (cmd : List String) (logfile : Option String)
    (name : Option String) (wrapped : Except String Unit)
    (logRead : Except Unit (List String)) : ProcOutcome :=
  match wrapped with
  | Except.ok u => { result := Except.ok u, errLines := [] }
  | Except.error awe =>
    let logLines :=
      match logfile, logRead with
      | some _, Except.ok lines =>
        lines.map (fun line => "    [LOG] " ++ line.trim)
      | _, _ => []
    { result := Except.error ("Failed to run " ++ effectiveName cmd name),
      errLines := ("[ERROR] " ++ awe ++ ".") :: logLines }

/-- Embedding of the comm-adapter argument fixup (line 160): append
"--log-directly" to the reproduced arguments unless already present. -/
def comm_arguments (reproduced : List String) : List String :=
  if "--log-directly" ∉ reproduced then reproduced ++ ["--log-directly"]
  else reproduced

/-- Embedding of the comm-adapter command `app_cmd` (line 161). -/
def comm_cmd (pythonExecutable : String) (reproduced : List String) :
    List String :=
  BASE_MODULE_ARGUMENTS pythonExecutable ++ ["fprime_gds.executables.comm"] ++
    comm_arguments reproduced

/-- Embedding of the GUI pipeline-argument fixup (lines 109-110): append
"--log-directly" to the reproduced pipeline arguments unless already
present. -/
def html_arguments (reproduced : List String) : List String :=
  if "--log-directly" ∉ reproduced then reproduced ++ ["--log-directly"]
  else reproduced

/-- Embedding of the GUI command `gse_args` (lines 119-126): a flask
invocation carrying only host and port. -/
def html_cmd (pythonExecutable : String) (gui_addr : String) (gui_port : Nat) :
    List String :=
  BASE_MODULE_ARGUMENTS pythonExecutable ++
    ["flask", "run", "--host", gui_addr, "--port", toString gui_port]

/-- Embedding of Python `sep.join(xs)` for a one-character separator, over
character lists. -/
def pyJoin (sep : Char) : List (List Char) → List Char
  | [] => []
  | [a] => a
  | a :: b :: rest => a ++ sep :: pyJoin sep (b :: rest)

/-- Embedding of Python `s.split(sep)` for a one-character separator, over
character lists: always returns at least one (possibly empty) field. -/
def pySplit (sep : Char) : List Char → List (List Char)
  | [] => [[]]
  | c :: rest =>
    if c = sep then [] :: pySplit sep rest
    else (c :: (pySplit sep rest).headI) :: (pySplit sep rest).tail

/-- The serialization used for STANDARD_PIPELINE_ARGUMENTS:
`"|".join(reproduced_arguments)` (line 115). -/
def joinPipe (args : List String) : String :=
  String.mk (pyJoin '|' (args.map String.data))

/-- The matching deserialization: splitting the variable's value on "|". -/
def splitPipe (s : String) : List String :=
  (pySplit '|' s.data).map String.mk

/-- Embedding of the GUI child environment (lines 111-118): a copy of the
supervisor's environment updated with exactly the three entries FLASK_APP,
STANDARD_PIPELINE_ARGUMENTS (the pipe-joined, flag-ensured pipeline
arguments) and SERVE_LOGS. -/
def flask_env (base : String → Option String) (reproduced : List String) :
    String → Option String :=
  fun k =>
    if k = "FLASK_APP" then some "fprime_gds.flask.app"
    else if k = "STANDARD_PIPELINE_ARGUMENTS" then
      some (joinPipe (html_arguments reproduced))
    else if k = "SERVE_LOGS" then some "YES"
    else base k

/-- An empty base environment, for concrete instantiations. -/
def emptyEnv : String → Option String := fun _ => none

/-- Invocation details handed to `launch_process` by one launcher:
command, log path, display name, and the stabilization window
(`launch_time`). -/
structure LaunchSpec where
  cmd : List String
  logfile : Option String
  name : Option String
  launchTime : Nat

/-- Default of `launch_process`'s `launch_time` parameter (line 49). -/
def default_launch_time : Nat := 5

/-- Embedding of `launch_tts` (lines 78-97): the messaging relay, launched
with the default stabilization window. -/
def launch_tts_spec (pythonExecutable : String) (c : Config) : LaunchSpec :=
  { cmd := BASE_MODULE_ARGUMENTS pythonExecutable ++
      ["fprime_gds.executables.tcpserver", "--port", toString c.tts_port,
       "--host", c.tts_addr],
    logfile := some (c.logs ++ "/ThreadedTCP.log"),
    name := some "TCP Server",
    launchTime := default_launch_time }

/-- Embedding of the `launch_process` call of `launch_html` (line 127). -/
def launch_html_spec (pythonExecutable : String) (c : Config) : LaunchSpec :=
  { cmd := html_cmd pythonExecutable c.gui_addr c.gui_port,
    logfile := none,
    name := some "HTML GUI",
    launchTime := 2 }

/-- Embedding of `launch_app` (lines 135-148); `appName` and `appAbsolute`
are the name and absolute form of the configured application path. -/
def launch_app_spec (c : Config) (appName appAbsolute : String) : LaunchSpec :=
  { cmd := [appAbsolute, "-p", toString c.port, "-a", c.address],
    logfile := some (c.logs ++ "/" ++ appName ++ ".log"),
    name := some (appName ++ " Application"),
    launchTime := 1 }

/-- Embedding of the `launch_process` call of `launch_comm` (line 162). -/
def launch_comm_spec (pythonExecutable : String) (c : Config)
    (reproduced : List String) : LaunchSpec :=
  { cmd := comm_cmd pythonExecutable reproduced,
    logfile := none,
    name := some ("comm[" ++ c.adapter ++ "] Application"),
    launchTime := 1 }

/-- Embedding of `poll_telem` (lines 178-189): the telemetry poller's
command concatenates the base pipeline arguments with the poller's own
reproduced arguments. -/
def poll_telem_spec (pythonExecutable : String)
    (reproducedStd reproducedPoller : List String) : LaunchSpec :=
  { cmd := BASE_MODULE_ARGUMENTS pythonExecutable ++
      ["fprime_openmct.fprime_telem_poller"] ++ reproducedStd ++
      reproducedPoller,
    logfile := none,
    name := some "OpenMCT Poller",
    launchTime := 1 }

/-- Observable outcome of one `launch_html` call: the launch result,
whether the browser was opened, and at which URL. -/
structure HtmlLaunch where
  result : Except String Unit
  browserOpened : Bool
  browserUrl : Option String

/-- Embedding of the tail of `launch_html` (lines 127-132): a failing
`launch_process` raises past the browser call; on success the browser is
opened at the resolved host:port exactly when `parsed_args.gui == "html"`. -/
def launch_html_run (c : Config) (launchResult : Except String Unit) :
    HtmlLaunch :=
  match launchResult with
  | Except.error e =>
    { result := Except.error e, browserOpened := false, browserUrl := none }
  | Except.ok u =>
    if c.gui = "html" then
      { result := Except.ok u, browserOpened := true,
        browserUrl :=
          some ("http://" ++ c.gui_addr ++ ":" ++ toString c.gui_port ++ "/") }
    else
      { result := Except.ok u, browserOpened := false, browserUrl := none }

theorem buildPlan_eq_planBlocks (c : Config) : buildPlan c = planBlocks c := by
  by_cases hz : c.zmq = false <;>
    by_cases hn : c.adapter = "none" <;>
      by_cases hi : c.adapter = "ip" <;>
        by_cases ha : c.app.isSome <;>
          by_cases ho : c.openmct = true <;>
            simp_all [buildPlan, planBlocks]

theorem buildPlan_nodup (c : Config) : (buildPlan c).Nodup := by
  rw [buildPlan_eq_planBlocks]
  by_cases hz : c.zmq = false <;>
    by_cases hn : c.adapter = "none" <;>
      by_cases hi : c.adapter = "ip" <;>
        by_cases ha : c.app.isSome <;>
          by_cases ho : c.openmct = true <;>
            simp_all [planBlocks]

theorem attemptedSeq_all_ok {α : Type} (ok : α → Bool) (l : List α)
    (h : l.all ok = true) : attemptedSeq ok l = l := by
  induction l with
  | nil => rfl
  | cons s rest ih =>
    simp only [List.all_cons, Bool.and_eq_true] at h
    simp [attemptedSeq, h.1, ih h.2]

theorem launchedSeq_all_ok {α : Type} (ok : α → Bool) (l : List α)
    (h : l.all ok = true) : launchedSeq ok l = l := by
  induction l with
  | nil => rfl
  | cons s rest ih =>
    simp only [List.all_cons, Bool.and_eq_true] at h
    simp [launchedSeq, h.1, ih h.2]

theorem attemptedSeq_eq_take {α : Type} (ok : α → Bool) :
    ∀ (l : List α) (k : Nat) (hk : k < l.length),
      (∀ s ∈ l.take k, ok s = true) → ok (l.get ⟨k, hk⟩) = false →
      attemptedSeq ok l = l.take (k + 1)
  | [], k, hk, _, _ => absurd hk (by simp)
  | s :: rest, 0, _, _, hfail => by
    simp only [List.get] at hfail
    simp [attemptedSeq, hfail]
  | s :: rest, k + 1, hk, hpre, hfail => by
    have hs : ok s = true := hpre s (by simp)
    have hrest : attemptedSeq ok rest = rest.take (k + 1) :=
      attemptedSeq_eq_take ok rest k (Nat.lt_of_succ_lt_succ hk)
        (fun x hx => hpre x (by simp [List.take_cons, hx]))
        hfail
    simp [attemptedSeq, hs, hrest, List.take_cons]

theorem launchedSeq_eq_take {α : Type} (ok : α → Bool) :
    ∀ (l : List α) (k : Nat) (hk : k < l.length),
      (∀ s ∈ l.take k, ok s = true) → ok (l.get ⟨k, hk⟩) = false →
      launchedSeq ok l = l.take k
  | [], k, hk, _, _ => absurd hk (by simp)
  | s :: rest, 0, _, _, hfail => by
    simp only [List.get] at hfail
    simp [launchedSeq, hfail]
  | s :: rest, k + 1, hk, hpre, hfail => by
    have hs : ok s = true := hpre s (by simp)
    have hrest : launchedSeq ok rest = rest.take k :=
      launchedSeq_eq_take ok rest k (Nat.lt_of_succ_lt_succ hk)
        (fun x hx => hpre x (by simp [List.take_cons, hx]))
        hfail
    simp [launchedSeq, hs, hrest, List.take_cons]

theorem pySplit_no_sep (sep : Char) (a : List Char) (h : sep ∉ a) :
    pySplit sep a = [a] := by
  induction a with
  | nil => rfl
  | cons c a ih =>
    simp only [List.mem_cons, not_or] at h
    have hc : ¬ c = sep := fun hh => h.1 hh.symm
    simp [pySplit, hc, ih h.2]

theorem pySplit_append_sep (sep : Char) (a s : List Char) (h : sep ∉ a) :
    pySplit sep (a ++ sep :: s) = a :: pySplit sep s := by
  induction a with
  | nil => simp [pySplit]
  | cons c a ih =>
    simp only [List.mem_cons, not_or] at h
    have hc : ¬ c = sep := fun hh => h.1 hh.symm
    simp [pySplit, hc, ih h.2]

theorem pySplit_pyJoin (sep : Char) :
    ∀ (xs : List (List Char)), xs ≠ [] → (∀ a ∈ xs, sep ∉ a) →
      pySplit sep (pyJoin sep xs) = xs
  | [], h, _ => absurd rfl h
  | [a], _, hn => by
    simp [pyJoin, pySplit_no_sep sep a (hn a (by simp))]
  | a :: b :: rest, _, hn => by
    have h1 : sep ∉ a := hn a (by simp)
    have h2 := pySplit_pyJoin sep (b :: rest) (by simp)
      (fun x hx => hn x (List.mem_cons_of_mem a hx))
    simp [pyJoin, pySplit_append_sep sep a _ h1, h2]

theorem stringMk_data (s : String) : String.mk s.data = s := by
  cases s
  rfl

theorem splitPipe_joinPipe (args : List String) (h : args ≠ [])
    (hn : ∀ a ∈ args, ('|' : Char) ∉ a.data) :
    splitPipe (joinPipe args) = args := by
  show (pySplit '|' (pyJoin '|' (args.map String.data))).map String.mk = args
  rw [pySplit_pyJoin '|' (args.map String.data) (by simpa using h)
    (by
      intro a ha
      rw [List.mem_map] at ha
      obtain ⟨s, hs, rfl⟩ := ha
      exact hn s hs)]
  rw [List.map_map]
  have hid : ∀ s ∈ args, (String.mk ∘ String.data) s = s :=
    fun s _ => stringMk_data s
  rw [List.map_congr_left hid]
  exact List.map_id args

/-- C1: for every resolved configuration the launch plan is exactly the
ordered sequence relay-if-not-zmq, adapter-if-not-none, app-if-path-and-ip,
GUI always, then OpenMCT server and poller if the bridge is enabled; in
particular the two scenario configurations yield [tts, html] and
[tts, comm, app, html]. -/
theorem C1_launch_plan_order (c : Config) :
    buildPlan c =
      (if c.zmq = false then [Step.tts] else []) ++
      (if c.adapter ≠ "none" then [Step.comm] else []) ++
      (if c.app.isSome ∧ c.adapter = "ip" then [Step.app] else []) ++
      [Step.html] ++
      (if c.openmct then [Step.openmct, Step.poller] else []) ∧
    (c.zmq = false → c.adapter = "none" → c.app = none → c.openmct = false →
      buildPlan c = [Step.tts, Step.html]) ∧
    (c.zmq = false → c.adapter = "ip" → c.app.isSome → c.openmct = false →
      buildPlan c = [Step.tts, Step.comm, Step.app, Step.html]) := by
  refine ⟨buildPlan_eq_planBlocks c, ?_, ?_⟩
  · intro hz hn ha ho
    rw [buildPlan_eq_planBlocks]
    simp [planBlocks, hz, hn, ha, ho]
  · intro hz hi ha ho
    rw [buildPlan_eq_planBlocks]
    simp [planBlocks, hz, hi, ha, ho]

/-- Witness for C1 at the two concrete scenario configurations. -/
theorem C1_launch_plan_order_witness :
    buildPlan cfgNone = [Step.tts, Step.html] ∧
    buildPlan cfgIp = [Step.tts, Step.comm, Step.app, Step.html] :=
  ⟨(C1_launch_plan_order cfgNone).2.1 rfl rfl rfl rfl,
   (C1_launch_plan_order cfgIp).2.2 rfl rfl rfl rfl⟩

/-- C2: when the bridge is requested but the supporting package is absent,
`main` raises the configuration error before the launch loop: the trace
records the error, no step is attempted, no handle exists, and nothing is
terminated. -/
theorem C2_bridge_unavailable_fail_fast (c : Config) (ok : Step → Bool)
    (w : WaitEvent) (hreq : c.openmct = true) :
    mainRun c false ok w =
      { configError := true, attempted := [], launched := [], terminated := [],
        exitCode := 1 } := by
  simp [mainRun, hreq]

/-- Witness for C2 at a concrete bridge-requesting configuration. -/
theorem C2_bridge_unavailable_fail_fast_witness :
    mainRun { cfgNone with openmct := true } false (fun _ => true)
        WaitEvent.terminalExit =
      { configError := true, attempted := [], launched := [], terminated := [],
        exitCode := 1 } :=
  C2_bridge_unavailable_fail_fast { cfgNone with openmct := true }
    (fun _ => true) WaitEvent.terminalExit rfl

/-- C3: an operator interrupt while waiting on the terminal process yields
exit status 0, a launch failure or an exception while waiting yields 1, and
every run exits with status 0 or 1 (a normal terminal exit also yields 0;
the uncaught bridge configuration error ends the interpreter with 1). -/
theorem C3_exit_codes (c : Config) (avail : Bool) (ok : Step → Bool)
    (w : WaitEvent) :
    ((c.openmct && !avail) = false → (buildPlan c).all ok = true →
      w = WaitEvent.interrupt → (mainRun c avail ok w).exitCode = 0) ∧
    ((c.openmct && !avail) = false → (buildPlan c).all ok = false →
      (mainRun c avail ok w).exitCode = 1) ∧
    ((c.openmct && !avail) = false → (buildPlan c).all ok = true →
      w = WaitEvent.error → (mainRun c avail ok w).exitCode = 1) ∧
    ((mainRun c avail ok w).exitCode = 0 ∨ (mainRun c avail ok w).exitCode = 1) := by
  refine ⟨?_, ?_, ?_, ?_⟩
  · intro hcfg hall hw
    simp [mainRun, hcfg, hall, hw]
  · intro hcfg hall
    simp [mainRun, hcfg, hall]
  · intro hcfg hall hw
    simp [mainRun, hcfg, hall, hw]
  · by_cases hcfg : (c.openmct && !avail) = true
    · right; simp [mainRun, hcfg]
    · simp only [Bool.not_eq_true] at hcfg
      by_cases hall : (buildPlan c).all ok = true
      · cases w <;> simp [mainRun, hcfg, hall]
      · right
        simp only [Bool.not_eq_true] at hall
        simp [mainRun, hcfg, hall]

/-- Witness for C3 at concrete inputs: interrupt after a clean launch of
the "none"-adapter plan gives 0, and a failing tcp server launch gives 1. -/
theorem C3_exit_codes_witness :
    (mainRun cfgNone true (fun _ => true) WaitEvent.interrupt).exitCode = 0 ∧
    (mainRun cfgNone true (fun _ => false) WaitEvent.terminalExit).exitCode = 1 :=
  ⟨(C3_exit_codes cfgNone true (fun _ => true) WaitEvent.interrupt).1
      (by decide) (by decide) rfl,
   (C3_exit_codes cfgNone true (fun _ => false) WaitEvent.terminalExit).2.1
      (by decide) (by decide)⟩

/-- C4: when the step at position `k` of the plan fails and every earlier
step succeeded, the run attempts exactly the steps up to and including `k`,
obtains handles for exactly the steps before `k`, and every such handle
receives exactly one terminate request before the supervisor exits. -/
theorem C4_failure_aborts_and_terminates_once (c : Config) (avail : Bool)
    (ok : Step → Bool) (w : WaitEvent) (k : Nat)
    (hcfg : (c.openmct && !avail) = false)
    (hk : k < (buildPlan c).length)
    (hpre : ∀ s ∈ (buildPlan c).take k, ok s = true)
    (hfail : ok ((buildPlan c).get ⟨k, hk⟩) = false) :
    (mainRun c avail ok w).attempted = (buildPlan c).take (k + 1) ∧
    (mainRun c avail ok w).launched = (buildPlan c).take k ∧
    ∀ s ∈ (mainRun c avail ok w).launched,
      (mainRun c avail ok w).terminated.count s = 1 := by
  have hnotall : (buildPlan c).all ok = false := by
    rw [Bool.eq_false_iff]
    intro hall
    rw [List.all_eq_true] at hall
    have h2 := hall _ (List.get_mem (buildPlan c) k hk)
    rw [hfail] at h2
    exact absurd h2 (by decide)
  have hatt := attemptedSeq_eq_take ok (buildPlan c) k hk hpre hfail
  have hlau := launchedSeq_eq_take ok (buildPlan c) k hk hpre hfail
  refine ⟨by simp [mainRun, hcfg, hatt], by simp [mainRun, hcfg, hlau], ?_⟩
  intro s hs
  have hterm : (mainRun c avail ok w).terminated = (buildPlan c).take k := by
    simp [mainRun, hcfg, hlau]
  have hsmem : s ∈ (buildPlan c).take k := by
    rw [← hterm]
    simpa [mainRun, hcfg, hlau, hterm] using hs
  rw [hterm]
  exact List.count_eq_one_of_mem
    ((buildPlan c).take_sublist k |>.nodup (buildPlan_nodup c)) hsmem

/-- Witness for C4: in the "ip" scenario plan [tts, comm, app, html], a
comm-adapter failure at position 1 leaves only the tcp server launched and
terminated exactly once. -/
theorem C4_failure_aborts_and_terminates_once_witness :
    (mainRun cfgIp true (fun s => s != Step.comm) WaitEvent.terminalExit).attempted
        = [Step.tts, Step.comm] ∧
    (mainRun cfgIp true (fun s => s != Step.comm) WaitEvent.terminalExit).launched
        = [Step.tts] ∧
    ∀ s ∈ (mainRun cfgIp true (fun s => s != Step.comm) WaitEvent.terminalExit).launched,
      (mainRun cfgIp true (fun s => s != Step.comm) WaitEvent.terminalExit).terminated.count s = 1 := by
  have h := C4_failure_aborts_and_terminates_once cfgIp true
    (fun s => s != Step.comm) WaitEvent.terminalExit 1
    (by decide) (by decide) (by decide) (by decide)
  exact ⟨by rw [h.1]; decide, by rw [h.2.1]; decide, h.2.2⟩

/-- C5: when the wrapped launch fails, the error raised upward is exactly
"Failed to run" followed by the dependent's display name, and the outcome
is identical for every possible result of the diagnostic log read — in
particular a log-read error (file never created) is swallowed and never
replaces the original launch failure. -/
theorem C5_log_replay_never_masks (cmd : List String) (logfile : Option String)
    (name : Option String) (awe : String)
    (logRead logRead2 : Except Unit (List String)) :
    (launch_process cmd logfile name (Except.error awe) logRead).result =
      Except.error ("Failed to run " ++ effectiveName cmd name) ∧
    (launch_process cmd logfile name (Except.error awe) logRead).result =
      (launch_process cmd logfile name (Except.error awe) logRead2).result ∧
    (launch_process cmd logfile name (Except.error awe)
        (Except.error ())).result =
      Except.error ("Failed to run " ++ effectiveName cmd name) := by
  refine ⟨rfl, ?_, rfl⟩
  cases logRead <;> cases logRead2 <;> rfl

/-- C6 counterexample: the command actually launched for the web GUI is a
bare flask invocation and does not contain "--log-directly" — for the GUI
the flag lives in the reproduced pipeline arguments carried through the
environment, not in the launched command's arguments. -/
theorem C6_counterexample_html_cmd :
    "--log-directly" ∉ html_cmd "python3" "127.0.0.1" 5000 := by
  decide

/-- C6 (amended): the communication adapter's launched command contains
"--log-directly" — appended when absent from the reproduced list, the list
kept unchanged when present, so the step never duplicates the flag; the web
GUI applies the same rule to the reproduced pipeline argument list that is
serialized into STANDARD_PIPELINE_ARGUMENTS, not to its launched command. -/
theorem C6_log_directly_flag (pythonExecutable : String)
    (reproduced : List String) (base : String → Option String) :
    "--log-directly" ∈ comm_cmd pythonExecutable reproduced ∧
    ("--log-directly" ∈ reproduced → comm_arguments reproduced = reproduced) ∧
    ("--log-directly" ∉ reproduced →
      comm_arguments reproduced = reproduced ++ ["--log-directly"]) ∧
    ("--log-directly" ∉ reproduced →
      (comm_arguments reproduced).count "--log-directly" = 1) ∧
    "--log-directly" ∈ html_arguments reproduced ∧
    ("--log-directly" ∈ reproduced → html_arguments reproduced = reproduced) ∧
    ("--log-directly" ∉ reproduced →
      html_arguments reproduced = reproduced ++ ["--log-directly"]) ∧
    ("--log-directly" ∉ reproduced →
      (html_arguments reproduced).count "--log-directly" = 1) ∧
    flask_env base reproduced "STANDARD_PIPELINE_ARGUMENTS" =
      some (joinPipe (html_arguments reproduced)) := by
  have hmem : "--log-directly" ∈ comm_arguments reproduced := by
    by_cases h : "--log-directly" ∈ reproduced
    · simp [comm_arguments, h]
    · simp [comm_arguments, h]
  have hcount : "--log-directly" ∉ reproduced →
      (reproduced ++ ["--log-directly"]).count "--log-directly" = 1 := by
    intro h
    rw [List.count_append, List.count_eq_zero_of_not_mem h]
    rfl
  refine ⟨?_, ?_, ?_, ?_, ?_, ?_, ?_, ?_, ?_⟩
  · simp [comm_cmd, hmem]
  · intro h; simp [comm_arguments, h]
  · intro h; simp [comm_arguments, h]
  · intro h; rw [comm_arguments, if_pos h]; exact hcount h
  · by_cases h : "--log-directly" ∈ reproduced
    · simp [html_arguments, h]
    · simp [html_arguments, h]
  · intro h; simp [html_arguments, h]
  · intro h; simp [html_arguments, h]
  · intro h; rw [html_arguments, if_pos h]; exact hcount h
  · rw [flask_env]
    rw [if_neg (by decide), if_pos rfl]

/-- Witness for C6 at concrete argument lists with and without the flag. -/
theorem C6_log_directly_flag_witness :
    comm_arguments ["--comm-adapter", "ip"] =
      ["--comm-adapter", "ip", "--log-directly"] ∧
    comm_arguments ["--log-directly"] = ["--log-directly"] ∧
    html_arguments ["--dictionary", "d.xml"] =
      ["--dictionary", "d.xml", "--log-directly"] ∧
    (comm_arguments ["--comm-adapter", "ip"]).count "--log-directly" = 1 :=
  ⟨(C6_log_directly_flag "python3" ["--comm-adapter", "ip"] emptyEnv).2.2.1
      (by decide),
   (C6_log_directly_flag "python3" ["--log-directly"] emptyEnv).2.1
      (by decide),
   (C6_log_directly_flag "python3" ["--dictionary", "d.xml"] emptyEnv).2.2.2.2.2.2.1
      (by decide),
   (C6_log_directly_flag "python3" ["--comm-adapter", "ip"] emptyEnv).2.2.2.1
      (by decide)⟩

/-- C7: the stabilization window is the 5-second default for the messaging
relay, 2 seconds for the web GUI, and 1 second for the communication
adapter, the application-under-test and the telemetry poller; every
lightweight dependent's window lies between 1 and 2 seconds. -/
theorem C7_stabilization_windows (pythonExecutable : String) (c : Config)
    (appName appAbsolute : String)
    (reproduced reproducedStd reproducedPoller : List String) :
    default_launch_time = 5 ∧
    (launch_tts_spec pythonExecutable c).launchTime = default_launch_time ∧
    (launch_tts_spec pythonExecutable c).launchTime = 5 ∧
    (launch_html_spec pythonExecutable c).launchTime = 2 ∧
    (launch_comm_spec pythonExecutable c reproduced).launchTime = 1 ∧
    (launch_app_spec c appName appAbsolute).launchTime = 1 ∧
    (poll_telem_spec pythonExecutable reproducedStd reproducedPoller).launchTime = 1 ∧
    1 ≤ (launch_html_spec pythonExecutable c).launchTime ∧
    (launch_html_spec pythonExecutable c).launchTime ≤ 2 ∧
    1 ≤ (launch_comm_spec pythonExecutable c reproduced).launchTime ∧
    (launch_comm_spec pythonExecutable c reproduced).launchTime ≤ 2 ∧
    1 ≤ (launch_app_spec c appName appAbsolute).launchTime ∧
    (launch_app_spec c appName appAbsolute).launchTime ≤ 2 ∧
    1 ≤ (poll_telem_spec pythonExecutable reproducedStd reproducedPoller).launchTime ∧
    (poll_telem_spec pythonExecutable reproducedStd reproducedPoller).launchTime ≤ 2 := by
  refine ⟨rfl, rfl, rfl, rfl, rfl, rfl, rfl, ?_, ?_, ?_, ?_, ?_, ?_, ?_, ?_⟩ <;>
    norm_num [launch_html_spec, launch_comm_spec, launch_app_spec,
      poll_telem_spec]

/-- C8 counterexample: with the configured GUI kind "html" (not "browser")
and a successful GUI launch, the browser is opened — the source condition
is `parsed_args.gui == "html"`, so "opened iff the GUI mode is browser" is
false at this configuration. -/
theorem C8_counterexample_browser_mode :
    (launch_html_run cfgNone (Except.ok ())).browserOpened = true ∧
    cfgNone.gui ≠ "browser" := by
  constructor
  · rfl
  · decide

/-- C8 (amended): after a successful GUI launch the browser is opened at
the resolved host:port if and only if the configured GUI kind is "html";
the browser is never opened when the GUI launch fails. -/
theorem C8_browser_iff_html (c : Config) (lr : Except String Unit)
    (e : String) :
    ((launch_html_run c lr).browserOpened = true ↔
      (lr = Except.ok () ∧ c.gui = "html")) ∧
    (launch_html_run c (Except.error e)).browserOpened = false ∧
    ((launch_html_run c lr).browserOpened = true →
      (launch_html_run c lr).browserUrl =
        some ("http://" ++ c.gui_addr ++ ":" ++ toString c.gui_port ++ "/")) := by
  refine ⟨?_, rfl, ?_⟩
  · cases lr with
    | error e2 => simp [launch_html_run]
    | ok u =>
      cases u
      by_cases hg : c.gui = "html" <;> simp [launch_html_run, hg]
  · intro hopen
    cases lr with
    | error e2 => exact absurd hopen (by simp [launch_html_run])
    | ok u =>
      cases u
      by_cases hg : c.gui = "html"
      · simp [launch_html_run, hg]
      · exact absurd hopen (by simp [launch_html_run, hg])

/-- Witness for C8: the browser opens at the resolved URL for the "html"
configuration after a successful launch, and never after a failed one. -/
theorem C8_browser_iff_html_witness :
    (launch_html_run cfgNone (Except.ok ())).browserOpened = true ∧
    (launch_html_run cfgNone (Except.error "dead")).browserOpened = false ∧
    (launch_html_run cfgNone (Except.ok ())).browserUrl =
      some "http://127.0.0.1:5000/" := by
  have h := C8_browser_iff_html cfgNone (Except.ok ()) "dead"
  have hopen : (launch_html_run cfgNone (Except.ok ())).browserOpened = true :=
    h.1.mpr ⟨rfl, rfl⟩
  exact ⟨hopen, h.2.1, by rw [h.2.2 hopen]; rfl⟩

/-- C9 counterexample: for the empty argument list (which vacuously has no
argument containing "|"), joining yields the empty string and splitting it
yields one empty field, not the original empty sequence — the round-trip
fails there. -/
theorem C9_counterexample_empty_list :
    (∀ a ∈ ([] : List String), ('|' : Char) ∉ a.data) ∧
    splitPipe (joinPipe []) = [""] ∧
    splitPipe (joinPipe []) ≠ ([] : List String) := by
  refine ⟨by simp, by decide, by decide⟩

/-- C9 (amended): the GUI child environment extends the base environment
with exactly the three entries FLASK_APP, STANDARD_PIPELINE_ARGUMENTS (the
pipe-joined pipeline arguments) and SERVE_LOGS, every other key being
passed through unchanged; splitting the joined string on "|" recovers the
original sequence for every non-empty argument list in which no argument
contains "|" (and the list actually serialized is never empty, since it
contains "--log-directly"); no escaping is performed, so a delimiter-
carrying argument corrupts the round-trip. -/
theorem C9_flask_env_serialization (base : String → Option String)
    (reproduced : List String) (k : String) (args : List String)
    (hk1 : k ≠ "FLASK_APP") (hk2 : k ≠ "STANDARD_PIPELINE_ARGUMENTS")
    (hk3 : k ≠ "SERVE_LOGS")
    (hargs : args ≠ []) (hnp : ∀ a ∈ args, ('|' : Char) ∉ a.data) :
    flask_env base reproduced "FLASK_APP" = some "fprime_gds.flask.app" ∧
    flask_env base reproduced "STANDARD_PIPELINE_ARGUMENTS" =
      some (joinPipe (html_arguments reproduced)) ∧
    flask_env base reproduced "SERVE_LOGS" = some "YES" ∧
    flask_env base reproduced k = base k ∧
    html_arguments reproduced ≠ [] ∧
    splitPipe (joinPipe args) = args ∧
    splitPipe (joinPipe ["a|b"]) = ["a", "b"] := by
  refine ⟨?_, ?_, ?_, ?_, ?_, splitPipe_joinPipe args hargs hnp, by decide⟩
  · rw [flask_env, if_pos rfl]
  · rw [flask_env, if_neg (by decide), if_pos rfl]
  · rw [flask_env, if_neg (by decide), if_neg (by decide), if_pos rfl]
  · rw [flask_env, if_neg hk1, if_neg hk2, if_neg hk3]
  · by_cases h : "--log-directly" ∈ reproduced
    · rw [html_arguments, if_neg (by simpa using h)]
      rintro rfl
      exact absurd h (by simp)
    · rw [html_arguments, if_pos h]
      simp

/-- Witness for C9 at a concrete base environment, key and argument list. -/
theorem C9_flask_env_serialization_witness :
    flask_env emptyEnv ["--dictionary", "d.xml"] "SERVE_LOGS" = some "YES" ∧
    flask_env emptyEnv ["--dictionary", "d.xml"] "PATH" = none ∧
    splitPipe (joinPipe ["--dictionary", "d.xml", "--log-directly"]) =
      ["--dictionary", "d.xml", "--log-directly"] := by
  have h := C9_flask_env_serialization emptyEnv ["--dictionary", "d.xml"]
    "PATH" ["--dictionary", "d.xml", "--log-directly"]
    (by decide) (by decide) (by decide) (by decide)
    (by decide)
  exact ⟨h.2.2.1, h.2.2.2.1, h.2.2.2.2.2.1⟩

/-- C10: every plan contains the web GUI step and is non-empty, so when
every launch succeeds the collection of handles is non-empty and the final
wait on the last handle is well-defined. -/
theorem C10_plan_nonempty_terminal_wait (c : Config) :
    Step.html ∈ buildPlan c ∧
    buildPlan c ≠ [] ∧
    ∀ (avail : Bool) (ok : Step → Bool) (w : WaitEvent),
      (c.openmct && !avail) = false → (buildPlan c).all ok = true →
      (mainRun c avail ok w).launched ≠ [] ∧
      ((mainRun c avail ok w).launched.getLast?).isSome = true := by
  have hmem : Step.html ∈ buildPlan c := by
    rw [buildPlan_eq_planBlocks]
    simp [planBlocks]
  refine ⟨hmem, by rintro h; rw [h] at hmem; exact absurd hmem (by simp), ?_⟩
  intro avail ok w hcfg hall
  have hlau : (mainRun c avail ok w).launched = buildPlan c := by
    simp [mainRun, hcfg, launchedSeq_all_ok ok _ hall]
  have hne : (mainRun c avail ok w).launched ≠ [] := by
    rw [hlau]
    rintro h; rw [h] at hmem; exact absurd hmem (by simp)
  exact ⟨hne, by rwa [List.getLast?_isSome]⟩

/-- Witness for C10 at a concrete configuration and all-successful run. -/
theorem C10_plan_nonempty_terminal_wait_witness :
    Step.html ∈ buildPlan cfgNone ∧
    (mainRun cfgNone true (fun _ => true) WaitEvent.terminalExit).launched ≠ [] :=
  ⟨(C10_plan_nonempty_terminal_wait cfgNone).1,
   ((C10_plan_nonempty_terminal_wait cfgNone).2.2 true (fun _ => true)
      WaitEvent.terminalExit (by decide) (by decide)).1⟩

end RunDeployment
